import Mathlib

/-!
Shallow embedding of the smart-bag sensor drivers (`src/dht22.c`, `src/dht22.h`,
`src/hx711.h`) and proofs about them.

Modelling conventions:
* C `uint32_t` clock values are `Nat` values below `2^32`; the wrapping
  subtraction `a - b` on `uint32_t` is written `(a + 2^32 - b) % 2^32`.
* C `float` arithmetic is modelled exactly over `ℚ`; for the value ranges the
  driver handles (multiples of 1/10 below 7000) the C float computation is
  exact, so no rounding is modelled.
* Hardware interaction is captured by an explicit environment (`Dht22Env`)
  supplying the clock readings, the outcome of each edge wait and the measured
  pulse lengths, and by a trace of hardware actions (`HWAction`) that each
  operation emits.
* Fallible operations return the C driver's `int` status codes.
-/

/-- Return codes from `src/dht22.h`. -/
def DHT22_OK : Int := 0

def DHT22_ERROR_CHECKSUM : Int := -1

def DHT22_ERROR_TIMEOUT : Int := -2

def DHT22_ERROR_INVALID_DATA : Int := -3

def DHT22_ERROR_NOT_INITIALIZED : Int := -4

/-- Timing constants from `src/dht22.c`. -/
def DHT22_START_SIGNAL_DELAY : Nat := 18000

def DHT22_RESPONSE_WAIT_TIMEOUT : Nat := 200

def DHT22_BIT_THRESHOLD : Nat := 50

def DHT22_MIN_INTERVAL_MS : Nat := 2000

/-- Modulus of the `uint32_t` clock values. -/
def U32MOD : Nat := 4294967296

/-- One hardware access performed by the driver (pin configuration, pin write,
pin polling, or sleep).  Reads of the monotonic clocks are not recorded. -/
inductive HWAction where
  | gpioInit (pin : Nat)
  | gpioSetPulls (pin : Nat) (up down : Bool)
  | gpioSetDir (pin : Nat) (out : Bool)
  | gpioPut (pin : Nat) (value : Bool)
  | gpioWait (pin : Nat) (target : Bool)
  | sleepUs (n : Nat)
  | sleepMs (n : Nat)
  deriving DecidableEq

/-- `dht22_state_t` from `src/dht22.c`. -/
structure Dht22State where
  last_read_time_ms : Nat
  pin : Nat
  initialized : Bool
  deriving DecidableEq

/-- `static dht22_state_t dht22_state = {0, 0, false};` -/
def dht22_initial_state : Dht22State := ⟨0, 0, false⟩

/-- Environment for one `dht22_read` call: the clock readings, the outcome of
the three response-handshake waits, and for each captured bit either the
measured high-pulse length (`some len`) or `none` when one of its two edge
waits timed out. -/
structure Dht22Env where
  current_time_ms : Nat
  resp1 : Bool
  resp2 : Bool
  resp3 : Bool
  pulses : List (Option Nat)
  after_time_ms : Nat

/-- `wait_for_pin_state` from `src/dht22.c`.  Each loop iteration reads the
pin and, when the pin does not yet have the target level, the microsecond
clock; `samples` supplies these `(pin level, clock value)` pairs in order.
Returns `some 0` on success, `some (-1)` on timeout, `none` if the supplied
sample trace is exhausted (the C loop would keep spinning). -/
def wait_for_pin_state : List (Bool × Nat) → Bool → Nat → Nat → Option Int
  | [], _, _, _ => none
  | (v, t) :: rest, target, start, timeout_us =>
    if v = target then some 0
    else if timeout_us < (t + U32MOD - start) % U32MOD then some (-1)
    else wait_for_pin_state rest target start timeout_us

/-- `dht22_init` from `src/dht22.c`: configures the pin, records it, clears the
last-read timestamp and sets the flag.  Always returns `DHT22_OK`. -/
def dht22_init (pin : Nat) (_st : Dht22State) : Int × Dht22State × List HWAction :=
  (DHT22_OK, ⟨0, pin, true⟩, [.gpioInit pin, .gpioSetPulls pin true false])

/-- `dht22_send_start_signal` from `src/dht22.c`.  Always returns `DHT22_OK`. -/
def dht22_send_start_signal (pin : Nat) : Int × List HWAction :=
  (DHT22_OK,
   [.gpioSetDir pin true, .gpioPut pin false, .sleepUs DHT22_START_SIGNAL_DELAY,
    .gpioPut pin true, .sleepUs 30, .gpioSetDir pin false])

/-- `dht22_wait_for_response` from `src/dht22.c`: three successive edge waits
(low, high, low), each failing with `DHT22_ERROR_TIMEOUT`. -/
def dht22_wait_for_response (env : Dht22Env) (pin : Nat) : Int × List HWAction :=
  if env.resp1 = false then (DHT22_ERROR_TIMEOUT, [.gpioWait pin false])
  else if env.resp2 = false then
    (DHT22_ERROR_TIMEOUT, [.gpioWait pin false, .gpioWait pin true])
  else if env.resp3 = false then
    (DHT22_ERROR_TIMEOUT, [.gpioWait pin false, .gpioWait pin true, .gpioWait pin false])
  else (DHT22_OK, [.gpioWait pin false, .gpioWait pin true, .gpioWait pin false])

/-- `data[i / 8] |= (1 << (7 - (i % 8)));` from `dht22_read_data`. -/
def dht22_store_bit (data : List Nat) (i : Nat) : List Nat :=
  data.set (i / 8) (data.getD (i / 8) 0 ||| (1 <<< (7 - i % 8)))

/-- Loop body of `dht22_read_data` from `src/dht22.c`: bit index `i`, one
pulse event per remaining loop iteration, the 5-byte buffer so far.  A `none`
pulse event (an edge wait timing out) aborts with `none`. -/
def dht22_read_bits : Nat → List (Option Nat) → List Nat → Option (List Nat)
  | _, [], data => some data
  | _, none :: _, _ => none
  | i, some pulse_length :: rest, data =>
    dht22_read_bits (i + 1) rest
      (if DHT22_BIT_THRESHOLD < pulse_length then dht22_store_bit data i else data)

/-- `dht22_read_data` from `src/dht22.c`: captures the 40 bits into a buffer
initialised to five zero bytes (`uint8_t data[5] = {0}` in `dht22_read`).
The C loop runs exactly 40 iterations; theorems constrain `pulses` to have
length 40. -/
def dht22_read_data (pulses : List (Option Nat)) : Option (List Nat) :=
  dht22_read_bits 0 pulses (List.replicate 5 0)

/-- Success path of `dht22_read_bits` (every pulse event present): the buffer
obtained by folding the store-bit updates.  Proof helper mirroring the
recursion of `dht22_read_bits`. -/
def dht22_pack : List Nat → Nat → List Nat → List Nat
  | [], _, data => data
  | pulse_length :: rest, i, data =>
    dht22_pack rest (i + 1)
      (if DHT22_BIT_THRESHOLD < pulse_length then dht22_store_bit data i else data)

/-- Trace of edge-wait actions emitted while capturing bits: each completed
bit performs a wait-for-high and a wait-for-low; a `none` event collapses the
bit's failing edge waits into a single recorded wait. -/
def dht22_capture_trace (pin : Nat) : List (Option Nat) → List HWAction
  | [] => []
  | none :: _ => [.gpioWait pin true]
  | some _ :: rest => .gpioWait pin true :: .gpioWait pin false :: dht22_capture_trace pin rest

/-- `dht22_verify_checksum` from `src/dht22.c`: the `uint8_t` sum of bytes 0-3
(truncated mod 256) must equal byte 4. -/
def dht22_verify_checksum (data : List Nat) : Int :=
  if (data.getD 0 0 + data.getD 1 0 + data.getD 2 0 + data.getD 3 0) % 256 ≠ data.getD 4 0 then
    DHT22_ERROR_CHECKSUM
  else DHT22_OK

/-- `dht22_convert_data` from `src/dht22.c`.  Returns the status code together
with the values written through the `temperature` and `humidity` out
parameters (written before the range validation, exactly as in the C code). -/
def dht22_convert_data (data : List Nat) : Int × ℚ × ℚ :=
  let humidity : ℚ := ((data.getD 0 0 <<< 8 ||| data.getD 1 0 : Nat) : ℚ) * (1 / 10)
  let magnitude : ℚ := (((data.getD 2 0 &&& 0x7F) <<< 8 ||| data.getD 3 0 : Nat) : ℚ) * (1 / 10)
  let temperature : ℚ := if data.getD 2 0 &&& 0x80 ≠ 0 then -magnitude else magnitude
  if humidity < 0 ∨ 100 < humidity ∨ temperature < -40 ∨ 80 < temperature then
    (DHT22_ERROR_INVALID_DATA, temperature, humidity)
  else (DHT22_OK, temperature, humidity)

/-- The minimum-interval enforcement at the top of `dht22_read`: the number of
milliseconds slept (0 when the code does not sleep).  `current` and `last` are
`uint32_t` millisecond clock values; the C subtraction wraps mod `2^32`. -/
def dht22_sleep_before (current last : Nat) : Nat :=
  if (current + U32MOD - last) % U32MOD < DHT22_MIN_INTERVAL_MS ∧ last ≠ 0 then
    DHT22_MIN_INTERVAL_MS - (current + U32MOD - last) % U32MOD
  else 0

/-- `dht22_read` from `src/dht22.c`.  Returns the status code, the driver state
after the call, and the trace of hardware actions performed.
`dht22_send_start_signal` always returns `DHT22_OK`, so the C check of its
result is modelled as straight-line code. -/
def dht22_read (st : Dht22State) (env : Dht22Env) : Int × Dht22State × List HWAction :=
  if st.initialized = false then
    (DHT22_ERROR_NOT_INITIALIZED, st, [])
  else
    let wait_ms := dht22_sleep_before env.current_time_ms st.last_read_time_ms
    let pre : List HWAction := if wait_ms = 0 then [] else [.sleepMs wait_ms]
    let start := dht22_send_start_signal st.pin
    let resp := dht22_wait_for_response env st.pin
    if resp.1 ≠ DHT22_OK then
      (resp.1, st, pre ++ start.2 ++ resp.2)
    else
      match dht22_read_data env.pulses with
      | none =>
        (DHT22_ERROR_TIMEOUT, st, pre ++ start.2 ++ resp.2 ++ dht22_capture_trace st.pin env.pulses)
      | some data =>
        let st2 : Dht22State := { st with last_read_time_ms := env.after_time_ms }
        let trace := pre ++ start.2 ++ resp.2 ++ dht22_capture_trace st.pin env.pulses
        let chk := dht22_verify_checksum data
        if chk ≠ DHT22_OK then (chk, st2, trace)
        else ((dht22_convert_data data).1, st2, trace)

/-- Modelled from the spec: the HX711 implementation file is missing from the
source tree (only the header `src/hx711.h` is present; spec §9 records that
only the header was available).  Spec §4.3: `calibrate(known_weight_reading,
actual_weight)` "computes and stores scale factor = known_weight_reading /
actual_weight".  The header declares `void calibrate_hx711(int32_t, float)`,
so there is no error channel; the division is performed and the result stored
unconditionally, the caller being responsible for a non-zero `actual_weight`
(§4.3).  Returns the stored scale factor.  Division on `ℚ` yields 0 for a
zero divisor, standing in for the undefined C float quotient. -/
def calibrate_hx711 (known_weight_reading : Int) (actual_weight : ℚ) : ℚ :=
  (known_weight_reading : ℚ) / actual_weight

/-- Modelled from the spec: the HX711 implementation file is missing from the
source tree.  Spec §4.3: `calculate_weight(reading) → float`: "weight =
reading / scale_factor", dividing by the process-wide scale factor with no
explicit guard for the uninitialised (zero) value (the silent divide-by-zero
spec §9 flags as a risk). -/
def calculate_weight (reading : Int) (scale_factor : ℚ) : ℚ :=
  (reading : ℚ) / scale_factor


/-! ### Helper lemmas -/

lemma byte_or_eq_add (hi lo : Nat) (h : lo < 256) : hi <<< 8 ||| lo = hi * 256 + lo := by
  have h2 : lo < 2 ^ 8 := lt_of_lt_of_eq h (by norm_num)
  have h3 := Nat.mul_add_lt_is_or h2 hi
  calc hi <<< 8 ||| lo = 2 ^ 8 * hi ||| lo := by rw [Nat.shiftLeft_eq, Nat.mul_comm]
    _ = 2 ^ 8 * hi + lo := h3.symm
    _ = hi * 256 + lo := by ring

lemma and_7f_eq_mod (x : Nat) : x &&& 127 = x % 128 := by
  have h : (127 : Nat) = 2 ^ 7 - 1 := by norm_num
  rw [h, Nat.and_pow_two_sub_one_eq_mod]

lemma and_80_ne_zero_iff (x : Nat) : (x &&& 128 ≠ 0) ↔ x.testBit 7 = true := by
  have h : (128 : Nat) = 2 ^ 7 := by norm_num
  rw [h, Nat.and_two_pow]
  cases hx : x.testBit 7 <;> simp

lemma getD_lt_of_all (data : List Nat) (hb : ∀ b ∈ data, b < 256) (i : Nat)
    (hi : i < data.length) : data.getD i 0 < 256 := by
  rw [List.getD_eq_getElem?_getD, List.getElem?_eq_getElem hi, Option.getD_some]
  exact hb _ (List.getElem_mem hi)

lemma dht22_convert_data_hum (data : List Nat) :
    (dht22_convert_data data).2.2 =
      ((data.getD 0 0 <<< 8 ||| data.getD 1 0 : Nat) : ℚ) * (1 / 10) := by
  unfold dht22_convert_data
  dsimp only
  split <;> split <;> rfl

lemma dht22_convert_data_temp (data : List Nat) :
    (dht22_convert_data data).2.1 =
      (if data.getD 2 0 &&& 0x80 ≠ 0 then
        -((((data.getD 2 0 &&& 0x7F) <<< 8 ||| data.getD 3 0 : Nat) : ℚ) * (1 / 10))
      else (((data.getD 2 0 &&& 0x7F) <<< 8 ||| data.getD 3 0 : Nat) : ℚ) * (1 / 10)) := by
  unfold dht22_convert_data
  dsimp only
  split <;> split <;> rfl

lemma dht22_convert_data_invalid (data : List Nat)
    (h : (dht22_convert_data data).2.2 < 0 ∨ 100 < (dht22_convert_data data).2.2 ∨
        (dht22_convert_data data).2.1 < -40 ∨ 80 < (dht22_convert_data data).2.1) :
    (dht22_convert_data data).1 = DHT22_ERROR_INVALID_DATA := by
  rw [dht22_convert_data_hum, dht22_convert_data_temp] at h
  unfold dht22_convert_data
  dsimp only
  rw [if_pos h]

lemma dht22_convert_data_valid (data : List Nat)
    (h : ¬((dht22_convert_data data).2.2 < 0 ∨ 100 < (dht22_convert_data data).2.2 ∨
        (dht22_convert_data data).2.1 < -40 ∨ 80 < (dht22_convert_data data).2.1)) :
    (dht22_convert_data data).1 = DHT22_OK := by
  rw [dht22_convert_data_hum, dht22_convert_data_temp] at h
  unfold dht22_convert_data
  dsimp only
  rw [if_neg h]

lemma dht22_convert_data_code_cases (data : List Nat) :
    (dht22_convert_data data).1 = DHT22_OK ∨
      (dht22_convert_data data).1 = DHT22_ERROR_INVALID_DATA := by
  by_cases h : (dht22_convert_data data).2.2 < 0 ∨ 100 < (dht22_convert_data data).2.2 ∨
      (dht22_convert_data data).2.1 < -40 ∨ 80 < (dht22_convert_data data).2.1
  · exact Or.inr (dht22_convert_data_invalid data h)
  · exact Or.inl (dht22_convert_data_valid data h)

lemma dht22_verify_checksum_cases (data : List Nat) :
    dht22_verify_checksum data = DHT22_OK ∨
      dht22_verify_checksum data = DHT22_ERROR_CHECKSUM := by
  unfold dht22_verify_checksum
  split
  · exact Or.inr rfl
  · exact Or.inl rfl

lemma dht22_read_not_initialized (st : Dht22State) (env : Dht22Env)
    (h : st.initialized = false) : dht22_read st env = (DHT22_ERROR_NOT_INITIALIZED, st, []) := by
  unfold dht22_read
  rw [if_pos h]

lemma dht22_wait_for_response_ok (env : Dht22Env) (pin : Nat) (h1 : env.resp1 = true)
    (h2 : env.resp2 = true) (h3 : env.resp3 = true) :
    dht22_wait_for_response env pin =
      (DHT22_OK, [.gpioWait pin false, .gpioWait pin true, .gpioWait pin false]) := by
  simp [dht22_wait_for_response, h1, h2, h3]

lemma dht22_read_code_of_capture (st : Dht22State) (env : Dht22Env) (data : List Nat)
    (hinit : st.initialized = true) (h1 : env.resp1 = true) (h2 : env.resp2 = true)
    (h3 : env.resp3 = true) (hdata : dht22_read_data env.pulses = some data) :
    (dht22_read st env).1 =
      (if dht22_verify_checksum data = DHT22_OK then (dht22_convert_data data).1
       else dht22_verify_checksum data) := by
  unfold dht22_read
  rw [if_neg (by simp [hinit]), dht22_wait_for_response_ok env st.pin h1 h2 h3, hdata]
  dsimp only
  rw [if_neg (by simp)]
  by_cases hc : dht22_verify_checksum data = DHT22_OK
  · rw [if_neg (by simp [hc]), if_pos hc]
  · rw [if_pos hc, if_neg hc]

lemma dht22_read_state_of_capture (st : Dht22State) (env : Dht22Env) (data : List Nat)
    (hinit : st.initialized = true) (h1 : env.resp1 = true) (h2 : env.resp2 = true)
    (h3 : env.resp3 = true) (hdata : dht22_read_data env.pulses = some data) :
    (dht22_read st env).2.1 = { st with last_read_time_ms := env.after_time_ms } := by
  unfold dht22_read
  rw [if_neg (by simp [hinit]), dht22_wait_for_response_ok env st.pin h1 h2 h3, hdata]
  dsimp only
  rw [if_neg (by simp)]
  split <;> rfl

lemma dht22_read_state_invariant (st : Dht22State) (env : Dht22Env) :
    (dht22_read st env).2.1.initialized = st.initialized ∧
      (dht22_read st env).2.1.pin = st.pin := by
  unfold dht22_read
  split
  · exact ⟨rfl, rfl⟩
  · dsimp only
    split
    · exact ⟨rfl, rfl⟩
    · split
      · exact ⟨rfl, rfl⟩
      · split <;> exact ⟨rfl, rfl⟩

lemma dht22_read_timeout_state (st : Dht22State) (env : Dht22Env)
    (h : (dht22_read st env).1 = DHT22_ERROR_TIMEOUT) : (dht22_read st env).2.1 = st := by
  revert h
  unfold dht22_read
  split
  · intro h
    dsimp only at h
    exact absurd h (by decide)
  · dsimp only
    split
    · intro _
      rfl
    · split
      · intro _
        rfl
      · rename_i data heq
        split <;> intro h <;> dsimp only at h
        · rcases dht22_verify_checksum_cases data with hc | hc <;> rw [hc] at h <;>
            exact absurd h (by decide)
        · rcases dht22_convert_data_code_cases data with hc | hc <;> rw [hc] at h <;>
            exact absurd h (by decide)

lemma dht22_read_trace_shape (st : Dht22State) (env : Dht22Env)
    (hinit : st.initialized = true) :
    ∃ tail, (dht22_read st env).2.2 =
      (if dht22_sleep_before env.current_time_ms st.last_read_time_ms = 0 then []
       else [HWAction.sleepMs (dht22_sleep_before env.current_time_ms st.last_read_time_ms)]) ++
        (dht22_send_start_signal st.pin).2 ++ tail := by
  unfold dht22_read
  rw [if_neg (by simp [hinit])]
  dsimp only
  split
  · exact ⟨(dht22_wait_for_response env st.pin).2, rfl⟩
  · split
    · exact ⟨(dht22_wait_for_response env st.pin).2 ++ dht22_capture_trace st.pin env.pulses,
        (List.append_assoc _ _ _)⟩
    · split <;>
        exact ⟨(dht22_wait_for_response env st.pin).2 ++ dht22_capture_trace st.pin env.pulses,
          (List.append_assoc _ _ _)⟩

lemma dht22_store_bit_length (data : List Nat) (i : Nat) :
    (dht22_store_bit data i).length = data.length := by
  simp [dht22_store_bit]

lemma dht22_pack_length (ds : List Nat) :
    ∀ i data, (dht22_pack ds i data).length = data.length := by
  induction ds with
  | nil =>
    intro i data
    rfl
  | cons d rest ih =>
    intro i data
    simp only [dht22_pack]
    rw [ih]
    split
    · exact dht22_store_bit_length data i
    · rfl

lemma dht22_read_bits_map_some (ds : List Nat) :
    ∀ i data, dht22_read_bits i (ds.map some) data = some (dht22_pack ds i data) := by
  induction ds with
  | nil =>
    intro i data
    rfl
  | cons d rest ih =>
    intro i data
    simp only [List.map_cons, dht22_read_bits, dht22_pack]
    exact ih _ _

lemma dht22_store_bit_testBit (data : List Nat) (hlen : data.length = 5) (i j : Nat)
    (hi : i < 40) (hj : j < 40) :
    (((dht22_store_bit data i).getD (j / 8) 0).testBit (7 - j % 8) = true) ↔
      ((data.getD (j / 8) 0).testBit (7 - j % 8) = true ∨ i = j) := by
  unfold dht22_store_bit
  by_cases hbyte : i / 8 = j / 8
  · rw [hbyte]
    have hv : (data.set (j / 8) (data.getD (j / 8) 0 ||| 1 <<< (7 - i % 8))).getD (j / 8) 0
        = data.getD (j / 8) 0 ||| 1 <<< (7 - i % 8) := by
      rw [List.getD_eq_getElem?_getD, List.getElem?_set_self (by rw [hlen]; omega),
        Option.getD_some]
    rw [hv, Nat.testBit_or, Nat.one_shiftLeft, Nat.testBit_two_pow]
    by_cases heq : i = j
    · have hpos : 7 - i % 8 = 7 - j % 8 := by omega
      simp [hpos, heq]
    · have hpos : 7 - i % 8 ≠ 7 - j % 8 := by omega
      simp [hpos, heq]
  · have hne : i / 8 ≠ j / 8 := hbyte
    have hij : i ≠ j := by omega
    rw [List.getD_eq_getElem?_getD, List.getElem?_set_ne hne, ← List.getD_eq_getElem?_getD]
    simp [hij]

lemma dht22_pack_testBit (ds : List Nat) :
    ∀ i data, data.length = 5 → i + ds.length ≤ 40 → ∀ j, j < 40 →
      (((dht22_pack ds i data).getD (j / 8) 0).testBit (7 - j % 8) = true ↔
        ((data.getD (j / 8) 0).testBit (7 - j % 8) = true ∨
          (i ≤ j ∧ j < i + ds.length ∧ DHT22_BIT_THRESHOLD < ds.getD (j - i) 0))) := by
  induction ds with
  | nil =>
    intro i data _ _ j _
    simp only [dht22_pack, List.length_nil, Nat.add_zero]
    constructor
    · exact Or.inl
    · rintro (hb | ⟨h1, h2, _⟩)
      · exact hb
      · omega
  | cons d rest ih =>
    intro i data hlen hbound j hj
    simp only [List.length_cons] at hbound ⊢
    have hlen2 : (if DHT22_BIT_THRESHOLD < d then dht22_store_bit data i else data).length = 5 := by
      split
      · rw [dht22_store_bit_length, hlen]
      · exact hlen
    simp only [dht22_pack]
    rw [ih (i + 1) _ hlen2 (by omega) j hj]
    by_cases hd : DHT22_BIT_THRESHOLD < d
    · rw [if_pos hd, dht22_store_bit_testBit data hlen i j (by omega) hj]
      constructor
      · rintro ((hb | hij) | ⟨h1, h2, h3⟩)
        · exact Or.inl hb
        · refine Or.inr ⟨by omega, by omega, ?_⟩
          have h0 : j - i = 0 := by omega
          rw [h0, List.getD_cons_zero]
          exact hd
        · refine Or.inr ⟨by omega, by omega, ?_⟩
          have hk : j - i = (j - (i + 1)) + 1 := by omega
          rw [hk, List.getD_cons_succ]
          exact h3
      · rintro (hb | ⟨h1, h2, h3⟩)
        · exact Or.inl (Or.inl hb)
        · by_cases hij : i = j
          · exact Or.inl (Or.inr hij)
          · refine Or.inr ⟨by omega, by omega, ?_⟩
            have hk : j - i = (j - (i + 1)) + 1 := by omega
            rw [hk, List.getD_cons_succ] at h3
            exact h3
    · rw [if_neg hd]
      constructor
      · rintro (hb | ⟨h1, h2, h3⟩)
        · exact Or.inl hb
        · refine Or.inr ⟨by omega, by omega, ?_⟩
          have hk : j - i = (j - (i + 1)) + 1 := by omega
          rw [hk, List.getD_cons_succ]
          exact h3
      · rintro (hb | ⟨h1, h2, h3⟩)
        · exact Or.inl hb
        · by_cases hij : i = j
          · exfalso
            have h0 : j - i = 0 := by omega
            rw [h0, List.getD_cons_zero] at h3
            exact hd h3
          · refine Or.inr ⟨by omega, by omega, ?_⟩
            have hk : j - i = (j - (i + 1)) + 1 := by omega
            rw [hk, List.getD_cons_succ] at h3
            exact h3

lemma replicate_getD_zero (j : Nat) (h : j < 5) :
    (List.replicate 5 (0 : Nat)).getD j 0 = 0 := by
  rw [List.getD_eq_getElem?_getD, List.getElem?_replicate_of_lt h, Option.getD_some]

lemma dht22_wait_for_response_code_cases (env : Dht22Env) (pin : Nat) :
    (dht22_wait_for_response env pin).1 = DHT22_OK ∨
      (dht22_wait_for_response env pin).1 = DHT22_ERROR_TIMEOUT := by
  unfold dht22_wait_for_response
  split
  · exact Or.inr rfl
  · split
    · exact Or.inr rfl
    · split
      · exact Or.inr rfl
      · exact Or.inl rfl

lemma dht22_wait_for_response_timeout (env : Dht22Env) (pin : Nat)
    (h : env.resp1 = false ∨ env.resp2 = false ∨ env.resp3 = false) :
    (dht22_wait_for_response env pin).1 = DHT22_ERROR_TIMEOUT := by
  unfold dht22_wait_for_response
  by_cases h1 : env.resp1 = false
  · rw [if_pos h1]
  · rw [if_neg h1]
    by_cases h2 : env.resp2 = false
    · rw [if_pos h2]
    · rw [if_neg h2]
      rcases h with hx | hx | hx
      · exact absurd hx h1
      · exact absurd hx h2
      · rw [if_pos hx]

/-- Any of the four timeout sources inside `dht22_read` — one of the three
response-handshake waits, or an edge wait during the 40-bit capture — makes
the call return `DHT22_ERROR_TIMEOUT` and leaves the state unchanged. -/
lemma dht22_read_timeout_cases (st : Dht22State) (env : Dht22Env)
    (hinit : st.initialized = true)
    (h : env.resp1 = false ∨ env.resp2 = false ∨ env.resp3 = false ∨
      dht22_read_data env.pulses = none) :
    (dht22_read st env).1 = DHT22_ERROR_TIMEOUT ∧ (dht22_read st env).2.1 = st := by
  by_cases hr : env.resp1 = false ∨ env.resp2 = false ∨ env.resp3 = false
  · have hto := dht22_wait_for_response_timeout env st.pin hr
    unfold dht22_read
    rw [if_neg (by simp [hinit])]
    dsimp only
    rw [if_pos (show (dht22_wait_for_response env st.pin).1 ≠ DHT22_OK from by
      rw [hto]; decide)]
    exact ⟨hto, rfl⟩
  · have h1t : env.resp1 = true := by
      revert hr
      cases env.resp1 <;> simp
    have h2t : env.resp2 = true := by
      revert hr
      cases env.resp2 <;> simp
    have h3t : env.resp3 = true := by
      revert hr
      cases env.resp3 <;> simp
    have hcap : dht22_read_data env.pulses = none := by
      rcases h with hx | hx | hx | hx
      · exact absurd hx (by simp [h1t])
      · exact absurd hx (by simp [h2t])
      · exact absurd hx (by simp [h3t])
      · exact hx
    unfold dht22_read
    rw [if_neg (by simp [hinit]), dht22_wait_for_response_ok env st.pin h1t h2t h3t, hcap]
    dsimp only
    rw [if_neg (by simp)]
    exact ⟨rfl, rfl⟩

lemma dht22_read_ne_not_initialized (st : Dht22State) (env : Dht22Env)
    (hinit : st.initialized = true) :
    (dht22_read st env).1 ≠ DHT22_ERROR_NOT_INITIALIZED := by
  unfold dht22_read
  rw [if_neg (by simp [hinit])]
  dsimp only
  split
  · rcases dht22_wait_for_response_code_cases env st.pin with hc | hc <;> rw [hc] <;> decide
  · split
    · dsimp only
      decide
    · rename_i data heq
      split
      · dsimp only
        rcases dht22_verify_checksum_cases data with hc | hc <;> rw [hc] <;> decide
      · dsimp only
        rcases dht22_convert_data_code_cases data with hc | hc <;> rw [hc] <;> decide

lemma wait_for_pin_state_timeout (target : Bool) (start timeout_us : Nat) :
    ∀ samples : List (Bool × Nat), (∀ p ∈ samples, p.1 ≠ target) →
      (∃ p ∈ samples, timeout_us < (p.2 + U32MOD - start) % U32MOD) →
      wait_for_pin_state samples target start timeout_us = some (-1) := by
  intro samples
  induction samples with
  | nil =>
    intro _ hex
    simp at hex
  | cons p rest ih =>
    intro hall hex
    obtain ⟨v, t⟩ := p
    have hv : ¬(v = target) := hall (v, t) (by simp)
    simp only [wait_for_pin_state]
    rw [if_neg hv]
    by_cases ht : timeout_us < (t + U32MOD - start) % U32MOD
    · rw [if_pos ht]
    · rw [if_neg ht]
      apply ih
      · intro q hq
        exact hall q (List.mem_cons_of_mem _ hq)
      · rcases hex with ⟨q, hq, hqt⟩
        rcases List.mem_cons.mp hq with hq1 | hq2
        · rw [hq1] at hqt
          exact absurd hqt ht
        · exact ⟨q, hq2, hqt⟩

/-! ### Claim theorems -/

/-- C1: For every 5-byte frame, `dht22_convert_data` computes humidity as the
big-endian 16-bit value of bytes 0-1 times 0.1, and temperature as the
big-endian 15-bit magnitude of (byte 2 low 7 bits, byte 3) times 0.1, negated
exactly when the top bit of byte 2 is set; in particular humidity bytes
{0x01,0xF4} decode to 50.0 %, temperature bytes {0x00,0xC8} to 20.0 degrees C,
and {0x80,0xC8} to -20.0 degrees C. -/
theorem dht22_conversion_formula (data : List Nat) (h5 : data.length = 5)
    (hb : ∀ b ∈ data, b < 256) :
    (dht22_convert_data data).2.2 =
      ((data.getD 0 0 * 256 + data.getD 1 0 : Nat) : ℚ) * (1 / 10) ∧
    (dht22_convert_data data).2.1 =
      (if (data.getD 2 0).testBit 7 then
        -((((data.getD 2 0 % 128) * 256 + data.getD 3 0 : Nat) : ℚ) * (1 / 10))
      else (((data.getD 2 0 % 128) * 256 + data.getD 3 0 : Nat) : ℚ) * (1 / 10)) ∧
    (dht22_convert_data [0x01, 0xF4, 0x00, 0xC8, 0xBD]).2.2 = 50 ∧
    (dht22_convert_data [0x01, 0xF4, 0x00, 0xC8, 0xBD]).2.1 = 20 ∧
    (dht22_convert_data [0x01, 0xF4, 0x80, 0xC8, 0x3D]).2.1 = -20 := by
  have h1 : data.getD 1 0 < 256 := getD_lt_of_all data hb 1 (by omega)
  have h3 : data.getD 3 0 < 256 := getD_lt_of_all data hb 3 (by omega)
  refine ⟨?_, ?_, ?_, ?_, ?_⟩
  · rw [dht22_convert_data_hum, byte_or_eq_add _ _ h1]
  · rw [dht22_convert_data_temp, and_7f_eq_mod, byte_or_eq_add _ _ h3]
    by_cases hbit : (data.getD 2 0).testBit 7
    · rw [if_pos ((and_80_ne_zero_iff _).mpr hbit), if_pos hbit]
    · rw [if_neg (fun hc => hbit ((and_80_ne_zero_iff _).mp hc)), if_neg hbit]
  · simp [dht22_convert_data]
    norm_num
  · simp [dht22_convert_data]
    norm_num
  · simp [dht22_convert_data, (by decide : (128 &&& 127 : Nat) = 0),
      (by decide : (128 &&& 128 : Nat) = 128)]
    norm_num

/-- Witness for C1 at the concrete frame {0x01, 0xF4, 0x00, 0xC8, 0xBD}:
humidity decodes to 500 x 0.1 = 50.0 %. -/
theorem dht22_conversion_formula_witness :
    (dht22_convert_data [0x01, 0xF4, 0x00, 0xC8, 0xBD]).2.2 =
      ((0x01 * 256 + 0xF4 : Nat) : ℚ) * (1 / 10) :=
  (dht22_conversion_formula [0x01, 0xF4, 0x00, 0xC8, 0xBD] (by decide) (by decide)).1

/-- C2: For every 5-byte frame, checksum verification succeeds if and only if
byte 4 equals (byte0 + byte1 + byte2 + byte3) mod 256; any failure is the
Checksum error, and a read whose 40-bit capture completed on a mismatching
frame fails with the Checksum error. -/
theorem dht22_checksum_iff (data : List Nat) (h5 : data.length = 5)
    (hb : ∀ b ∈ data, b < 256) :
    (dht22_verify_checksum data = DHT22_OK ↔
      data.getD 4 0 =
        (data.getD 0 0 + data.getD 1 0 + data.getD 2 0 + data.getD 3 0) % 256) ∧
    (dht22_verify_checksum data ≠ DHT22_OK →
      dht22_verify_checksum data = DHT22_ERROR_CHECKSUM) ∧
    (∀ st env, st.initialized = true → env.resp1 = true → env.resp2 = true →
      env.resp3 = true → dht22_read_data env.pulses = some data →
      dht22_verify_checksum data ≠ DHT22_OK →
      (dht22_read st env).1 = DHT22_ERROR_CHECKSUM) := by
  refine ⟨?_, ?_, ?_⟩
  · unfold dht22_verify_checksum
    by_cases h : (data.getD 0 0 + data.getD 1 0 + data.getD 2 0 + data.getD 3 0) % 256
        = data.getD 4 0
    · rw [if_neg (not_ne_iff.mpr h)]
      exact ⟨fun _ => h.symm, fun _ => rfl⟩
    · rw [if_pos h]
      constructor
      · intro hok
        exact absurd hok (by decide)
      · intro h4
        exact absurd h4.symm h
  · intro hne
    rcases dht22_verify_checksum_cases data with hc | hc
    · exact absurd hc hne
    · exact hc
  · intro st env hinit h1 h2 h3 hdata hne
    rw [dht22_read_code_of_capture st env data hinit h1 h2 h3 hdata, if_neg hne]
    rcases dht22_verify_checksum_cases data with hc | hc
    · exact absurd hc hne
    · exact hc

/-- Witness for C2 at the concrete frame {1, 2, 3, 4, 10}: its checksum byte
10 equals (1+2+3+4) mod 256, and verification succeeds. -/
theorem dht22_checksum_iff_witness :
    dht22_verify_checksum [1, 2, 3, 4, 10] = DHT22_OK ↔
      (10 : Nat) = (1 + 2 + 3 + 4) % 256 :=
  (dht22_checksum_iff [1, 2, 3, 4, 10] (by decide) (by decide)).1

/-- C3: For every captured bit of the 40-bit payload, the bit decodes to 1
exactly when the measured high-pulse duration exceeds 50 microseconds, and the
bits are packed into the 5-byte buffer most-significant-bit first in
byte-major order: bit i of the payload is bit (7 - i mod 8) of byte (i div 8). -/
theorem dht22_bit_capture (ds : List Nat) (h40 : ds.length = 40) :
    ∃ bytes, dht22_read_data (ds.map some) = some bytes ∧ bytes.length = 5 ∧
      ∀ i, i < 40 →
        ((bytes.getD (i / 8) 0).testBit (7 - i % 8) = true ↔
          DHT22_BIT_THRESHOLD < ds.getD i 0) := by
  refine ⟨dht22_pack ds 0 (List.replicate 5 0), dht22_read_bits_map_some ds 0 _, ?_, ?_⟩
  · rw [dht22_pack_length, List.length_replicate]
  · intro i hi
    rw [dht22_pack_testBit ds 0 _ (by simp) (by omega) i hi,
      replicate_getD_zero _ (by omega)]
    simp only [Nat.zero_testBit, Nat.sub_zero, Nat.zero_add, h40]
    constructor
    · rintro (hb | ⟨_, _, h3⟩)
      · exact absurd hb (by simp)
      · exact h3
    · intro h
      exact Or.inr ⟨Nat.zero_le i, hi, h⟩

/-- Witness for C3: a payload whose first pulse lasts 51 us and second 49 us;
the theorem yields that bit 0 decodes to 1 and bit 1 to 0 (threshold 50 us). -/
theorem dht22_bit_capture_witness :
    ∃ bytes,
      dht22_read_data ((51 :: 49 :: List.replicate 38 0 : List Nat).map some) = some bytes ∧
      bytes.length = 5 ∧
      ∀ i, i < 40 →
        ((bytes.getD (i / 8) 0).testBit (7 - i % 8) = true ↔
          DHT22_BIT_THRESHOLD < (51 :: 49 :: List.replicate 38 0 : List Nat).getD i 0) :=
  dht22_bit_capture (51 :: 49 :: List.replicate 38 0) (by simp)

/-- C4: For every frame that passes checksum verification, a read whose
capture completed returns the InvalidData error whenever the decoded humidity
lies outside [0, 100] or the decoded temperature lies outside [-40, 80]; in
particular a frame decoding to humidity 150.0 % or temperature 90.0 degrees C
is rejected with InvalidData even though its checksum passes. -/
theorem dht22_invalid_data_rejection (data : List Nat) (h5 : data.length = 5)
    (hb : ∀ b ∈ data, b < 256)
    (hrange : (dht22_convert_data data).2.2 < 0 ∨ 100 < (dht22_convert_data data).2.2 ∨
      (dht22_convert_data data).2.1 < -40 ∨ 80 < (dht22_convert_data data).2.1) :
    (dht22_convert_data data).1 = DHT22_ERROR_INVALID_DATA ∧
    (∀ st env, st.initialized = true → env.resp1 = true → env.resp2 = true →
      env.resp3 = true → dht22_read_data env.pulses = some data →
      dht22_verify_checksum data = DHT22_OK →
      (dht22_read st env).1 = DHT22_ERROR_INVALID_DATA) ∧
    dht22_verify_checksum [0x05, 0xDC, 0x00, 0xC8, 0xA9] = DHT22_OK ∧
    (dht22_convert_data [0x05, 0xDC, 0x00, 0xC8, 0xA9]).2.2 = 150 ∧
    (dht22_convert_data [0x05, 0xDC, 0x00, 0xC8, 0xA9]).1 = DHT22_ERROR_INVALID_DATA ∧
    dht22_verify_checksum [0x01, 0xF4, 0x03, 0x84, 0x7C] = DHT22_OK ∧
    (dht22_convert_data [0x01, 0xF4, 0x03, 0x84, 0x7C]).2.1 = 90 ∧
    (dht22_convert_data [0x01, 0xF4, 0x03, 0x84, 0x7C]).1 = DHT22_ERROR_INVALID_DATA := by
  refine ⟨dht22_convert_data_invalid data hrange, ?_, ?_, ?_, ?_, ?_, ?_, ?_⟩
  · intro st env hinit h1 h2 h3 hdata hchk
    rw [dht22_read_code_of_capture st env data hinit h1 h2 h3 hdata, if_pos hchk]
    exact dht22_convert_data_invalid data hrange
  · simp [dht22_verify_checksum]
  · simp [dht22_convert_data]
    norm_num
  · simp [dht22_convert_data, DHT22_ERROR_INVALID_DATA, DHT22_OK]
    norm_num
  · simp [dht22_verify_checksum]
  · simp [dht22_convert_data, (by decide : (3 &&& 127 : Nat) = 3),
      (by decide : (3 &&& 128 : Nat) = 0)]
    norm_num
  · simp [dht22_convert_data, (by decide : (3 &&& 127 : Nat) = 3),
      (by decide : (3 &&& 128 : Nat) = 0), DHT22_ERROR_INVALID_DATA, DHT22_OK]
    norm_num

/-- Witness for C4 at the frame {0x05, 0xDC, 0x00, 0xC8, 0xA9} (humidity
150.0 %, checksum valid): conversion rejects it with InvalidData. -/
theorem dht22_invalid_data_rejection_witness :
    (dht22_convert_data [0x05, 0xDC, 0x00, 0xC8, 0xA9]).1 = DHT22_ERROR_INVALID_DATA :=
  (dht22_invalid_data_rejection [0x05, 0xDC, 0x00, 0xC8, 0xA9] (by decide) (by decide)
    (by simp [dht22_convert_data]; norm_num)).1

/-- C5: For every read() call made less than 2000 ms after the prior read's
recorded (nonzero) timestamp, the call sleeps for exactly the remainder, so
that 2000 ms have elapsed since the prior read, and the sleep happens before
the start signal is issued.  (A recorded timestamp of 0 is the init sentinel;
a completed read records the time after its 18 ms start signal, so its
recorded timestamp is nonzero.) -/
theorem dht22_rate_limit (st : Dht22State) (env : Dht22Env)
    (hinit : st.initialized = true) (hlast : st.last_read_time_ms ≠ 0)
    (helapsed : (env.current_time_ms + U32MOD - st.last_read_time_ms) % U32MOD <
      DHT22_MIN_INTERVAL_MS) :
    dht22_sleep_before env.current_time_ms st.last_read_time_ms =
      DHT22_MIN_INTERVAL_MS -
        (env.current_time_ms + U32MOD - st.last_read_time_ms) % U32MOD ∧
    (env.current_time_ms + U32MOD - st.last_read_time_ms) % U32MOD +
        dht22_sleep_before env.current_time_ms st.last_read_time_ms =
      DHT22_MIN_INTERVAL_MS ∧
    ∃ rest, (dht22_read st env).2.2 =
      HWAction.sleepMs (dht22_sleep_before env.current_time_ms st.last_read_time_ms) ::
        HWAction.gpioSetDir st.pin true :: rest := by
  have hs : dht22_sleep_before env.current_time_ms st.last_read_time_ms =
      DHT22_MIN_INTERVAL_MS -
        (env.current_time_ms + U32MOD - st.last_read_time_ms) % U32MOD := by
    unfold dht22_sleep_before
    rw [if_pos ⟨helapsed, hlast⟩]
  have h2000 : DHT22_MIN_INTERVAL_MS = 2000 := rfl
  refine ⟨hs, by omega, ?_⟩
  have hs0 : dht22_sleep_before env.current_time_ms st.last_read_time_ms ≠ 0 := by omega
  obtain ⟨tail, htail⟩ := dht22_read_trace_shape st env hinit
  refine ⟨[HWAction.gpioPut st.pin false, HWAction.sleepUs DHT22_START_SIGNAL_DELAY,
    HWAction.gpioPut st.pin true, HWAction.sleepUs 30, HWAction.gpioSetDir st.pin false] ++
      tail, ?_⟩
  rw [htail, if_neg hs0]
  rfl

/-- Witness for C5: previous read recorded at 1000 ms, current time 2500 ms
(1500 ms elapsed): the call sleeps 2000 - 1500 = 500 ms. -/
theorem dht22_rate_limit_witness :
    dht22_sleep_before 2500 1000 =
      DHT22_MIN_INTERVAL_MS - (2500 + U32MOD - 1000) % U32MOD :=
  (dht22_rate_limit ⟨1000, 5, true⟩ ⟨2500, true, true, true, [], 0⟩ rfl (by decide)
    (by decide)).1

/-- C6: For every read() in which the 40-bit capture completes, the stored
last-read timestamp becomes the post-capture clock value, before checksum
verification runs (so also when the call then fails with Checksum or
InvalidData); a read that fails with Timeout (during the handshake or the bit
capture) leaves the driver state, including the timestamp, unchanged. -/
theorem dht22_timestamp_update (st : Dht22State) (env : Dht22Env)
    (hinit : st.initialized = true) :
    (∀ data, env.resp1 = true → env.resp2 = true → env.resp3 = true →
      dht22_read_data env.pulses = some data →
      (dht22_read st env).2.1.last_read_time_ms = env.after_time_ms) ∧
    ((dht22_read st env).1 = DHT22_ERROR_TIMEOUT → (dht22_read st env).2.1 = st) := by
  constructor
  · intro data h1 h2 h3 hdata
    rw [dht22_read_state_of_capture st env data hinit h1 h2 h3 hdata]
  · exact dht22_read_timeout_state st env

/-- Witness for C6: a capture of 40 short pulses (frame 00 00 00 00 00, valid
checksum) read at post-capture time 7 ms records timestamp 7. -/
theorem dht22_timestamp_update_witness :
    (dht22_read ⟨0, 4, true⟩
        ⟨0, true, true, true, List.replicate 40 (some 30), 7⟩).2.1.last_read_time_ms = 7 :=
  (dht22_timestamp_update ⟨0, 4, true⟩ ⟨0, true, true, true, List.replicate 40 (some 30), 7⟩
    rfl).1 [0, 0, 0, 0, 0] rfl rfl rfl (by decide)

/-- C7: read() on the never-initialised driver state returns NotInitialized,
performs no hardware access (empty action trace) and leaves the driver state
unchanged, for every environment. -/
theorem dht22_read_before_init (env : Dht22Env) :
    dht22_read dht22_initial_state env =
      (DHT22_ERROR_NOT_INITIALIZED, dht22_initial_state, []) :=
  dht22_read_not_initialized dht22_initial_state env rfl

/-- C8: evaluating the spec-modelled HX711 operations: `calibrate_hx711`
accepts a zero or negative reference weight and stores the resulting invalid
scale factor instead of rejecting it at the boundary, and `calculate_weight`
divides by whatever scale factor is stored, with no guard for the
uninitialised zero value (`ℚ` renders the unguarded division by zero as 0;
the C float division is undefined/infinite there).  The nominal calibration
example of spec section 8 (calibrate(1000, 5.0) then calculate_weight(400) =
2.0) is included as a sanity check of the model. -/
theorem hx711_unguarded_division :
    calibrate_hx711 1000 (-5) = -200 ∧
    calculate_weight 400 (calibrate_hx711 1000 (-5)) = -2 ∧
    calibrate_hx711 1000 0 = 0 ∧
    calculate_weight 400 0 = 0 ∧
    calibrate_hx711 1000 5 = 200 ∧
    calculate_weight 400 (calibrate_hx711 1000 5) = 2 := by
  refine ⟨?_, ?_, ?_, ?_, ?_, ?_⟩ <;> norm_num [calibrate_hx711, calculate_weight]

/-- C9: an edge wait whose samples never reach the target level and whose
clock passes the timeout bound returns the timeout code -1; every read() call
leaves the initialized flag and the assigned pin unchanged; a read() in which
any edge wait times out — any of the three handshake waits, or any edge wait
of the 40-bit capture — returns Timeout with the state fully unchanged; and
on an initialised driver a subsequent read() never fails with NotInitialized,
whatever the prior outcome was. -/
theorem dht22_timeout_leaves_retryable (samples : List (Bool × Nat)) (target : Bool)
    (start timeout_us : Nat) (hall : ∀ p ∈ samples, p.1 ≠ target)
    (hex : ∃ p ∈ samples, timeout_us < (p.2 + U32MOD - start) % U32MOD) :
    wait_for_pin_state samples target start timeout_us = some (-1) ∧
    (∀ st env, (dht22_read st env).2.1.initialized = st.initialized ∧
      (dht22_read st env).2.1.pin = st.pin) ∧
    (∀ st env, st.initialized = true →
      (env.resp1 = false ∨ env.resp2 = false ∨ env.resp3 = false ∨
        dht22_read_data env.pulses = none) →
      (dht22_read st env).1 = DHT22_ERROR_TIMEOUT ∧ (dht22_read st env).2.1 = st) ∧
    (∀ st env, st.initialized = true →
      (dht22_read st env).1 ≠ DHT22_ERROR_NOT_INITIALIZED) := by
  exact ⟨wait_for_pin_state_timeout target start timeout_us samples hall hex,
    fun st env => dht22_read_state_invariant st env,
    fun st env hinit h => dht22_read_timeout_cases st env hinit h,
    fun st env hinit => dht22_read_ne_not_initialized st env hinit⟩

/-- Witness for C9: a single sample at level low (target high) taken at clock
300 us with a 200 us timeout: the wait returns -1. -/
theorem dht22_timeout_leaves_retryable_witness :
    wait_for_pin_state [(false, 300)] true 0 200 = some (-1) :=
  (dht22_timeout_leaves_retryable [(false, 300)] true 0 200 (by decide)
    ⟨(false, 300), by decide, by decide⟩).1

/-- C10: When the stored last-read timestamp is the sentinel 0 (as set by
init), the minimum-interval wait is skipped entirely — no sleep is performed
and the trace starts directly with the start signal — regardless of the
current clock value; and init always stores timestamp 0. -/
theorem dht22_sentinel_skips_wait (st : Dht22State) (env : Dht22Env) (p : Nat)
    (old : Dht22State) (hinit : st.initialized = true)
    (hlast : st.last_read_time_ms = 0) :
    dht22_sleep_before env.current_time_ms st.last_read_time_ms = 0 ∧
    (∃ rest, (dht22_read st env).2.2 = HWAction.gpioSetDir st.pin true :: rest) ∧
    (dht22_init p old).2.1.last_read_time_ms = 0 := by
  have hs : dht22_sleep_before env.current_time_ms st.last_read_time_ms = 0 := by
    unfold dht22_sleep_before
    rw [hlast, if_neg (by simp)]
  refine ⟨hs, ?_, rfl⟩
  obtain ⟨tail, htail⟩ := dht22_read_trace_shape st env hinit
  refine ⟨[HWAction.gpioPut st.pin false, HWAction.sleepUs DHT22_START_SIGNAL_DELAY,
    HWAction.gpioPut st.pin true, HWAction.sleepUs 30, HWAction.gpioSetDir st.pin false] ++
      tail, ?_⟩
  rw [htail, hs]
  rfl

/-- Witness for C10: freshly initialised driver (timestamp 0) read at clock
1 ms: no sleep is performed. -/
theorem dht22_sentinel_skips_wait_witness :
    dht22_sleep_before 1 0 = 0 :=
  (dht22_sentinel_skips_wait ⟨0, 9, true⟩ ⟨1, false, true, true, [], 0⟩ 3 ⟨5, 5, false⟩
    rfl rfl).1
